import Mathlib

/-!
Shallow embedding of src/pysip2/shell.py (the pysip2 interactive SIP2 shell).

The embedding models the command dispatch and session-state engine of the
shell: the tokenizer used by CommandRunner.run (Python shlex.split with
POSIX rules and comments enabled), the nine registered command handlers,
the session handle (self.client), the configuration object, and the
configuration loader (ConfigHandler).

Conventions of the embedding:
  - Python exceptions are values of PyExc; a handler returns
    Except PyExc (Option Bool), where Option Bool models a Python return
    value of True, False, or None (a handler that falls off the end
    returns None).
  - print output is traced as a list of Out values; Out.out is stdout,
    Out.err is stderr (file=sys.stderr).
  - every invocation of the external protocol-client collaborator
    (pysip2.client.Client) is traced as a Call value; the collaborator
    itself is a stub ClientBehavior that fixes the outcome of each call,
    mirroring the spy collaborator the specification asks tests to use.
-/

namespace Pysip2

/-- Python exceptions that the shell code can raise or catch. -/
inductive PyExc where
  | indexError
  | attributeError
  | typeError
  | valueError
  | networkError
  | systemExit (code : Nat)
deriving DecidableEq, Repr

/-- One printed line: Out.out is print to stdout, Out.err is print to stderr. -/
inductive Out where
  | out (s : String)
  | err (s : String)
deriving DecidableEq, Repr

/-- A traced invocation of the protocol-client collaborator. -/
inductive Call where
  | connect
  | login (username password location_code : Option String)
  | sc_status
  | patron_info_request (barcode : String)
deriving DecidableEq, Repr

def Call.isLogin : Call → Bool
  | .login _ _ _ => true
  | _ => false

def Call.isStatus : Call → Bool
  | .sc_status => true
  | _ => false

-- Characters written via their code points so the file stays free of
-- quote characters inside character literals.
def squote : Char := Char.ofNat 39
def dquote : Char := Char.ofNat 34
def bslash : Char := Char.ofNat 92

/-! ### Python shlex.split, POSIX mode, whitespace_split, comments enabled

CommandRunner.run calls shlex.split(line, comments=True).  The state
machine below ports CPython shlex.read_token for posix=True,
whitespace_split=True, commenters equal to the hash character, quotes the
two quote characters, escape the backslash, escapedquotes the double
quote.  Unclosed quotes and a trailing escape raise ValueError. -/

def isShWS (c : Char) : Bool := c = ' ' || c = '\t' || c = '\r' || c = '\n'

/-- shlex consumes the rest of the line (through the newline) on a comment. -/
def dropLine (cs : List Char) : List Char :=
  (cs.dropWhile (fun c => !(c = '\n'))).drop 1

/-- Tokenizer state: between tokens, inside a token, inside a quote, or
right after an escape character (inDq marks an escape inside a
double-quoted section). -/
inductive LexSt where
  | ws
  | word
  | quot (q : Char)
  | esc (inDq : Bool)
deriving DecidableEq, Repr

/-- POSIX shlex emits the pending token when it is nonempty or when a quote
was seen (so an empty quoted string is a real token). -/
def emitTok (tok : List Char) (quoted : Bool) (acc : List String) : List String :=
  if tok.isEmpty && !quoted then acc else acc ++ [String.mk tok]

/-- One pass of the shlex state machine.  Fuel is structural; shlexSplit
supplies enough fuel for the whole input, so the fuel-exhausted branch is
unreachable there. -/
def shlexCore (fuel : Nat) (cs : List Char) (st : LexSt) (tok : List Char)
    (quoted : Bool) (acc : List String) : Except PyExc (List String) :=
  match fuel with
  | 0 => .error .valueError
  | fuel + 1 =>
    match cs with
    | [] =>
      match st with
      | .ws => .ok acc
      | .word => .ok (emitTok tok quoted acc)
      | .quot _ => .error .valueError
      | .esc _ => .error .valueError
    | c :: rest =>
      match st with
      | .ws =>
        if isShWS c then shlexCore fuel rest .ws [] false acc
        else if c = '#' then shlexCore fuel (dropLine rest) .ws [] false acc
        else if c = bslash then shlexCore fuel rest (.esc false) [] false acc
        else if c = squote || c = dquote then shlexCore fuel rest (.quot c) [] true acc
        else shlexCore fuel rest .word [c] false acc
      | .word =>
        if isShWS c then shlexCore fuel rest .ws [] false (emitTok tok quoted acc)
        else if c = '#' then shlexCore fuel (dropLine rest) .ws [] false (emitTok tok quoted acc)
        else if c = bslash then shlexCore fuel rest (.esc false) tok quoted acc
        else if c = squote || c = dquote then shlexCore fuel rest (.quot c) tok true acc
        else shlexCore fuel rest .word (tok ++ [c]) quoted acc
      | .quot q =>
        if c = q then shlexCore fuel rest .word tok quoted acc
        else if q = dquote && c = bslash then shlexCore fuel rest (.esc true) tok quoted acc
        else shlexCore fuel rest (.quot q) (tok ++ [c]) quoted acc
      | .esc inDq =>
        let tok2 := if inDq && !(c = bslash) && !(c = dquote)
          then tok ++ [bslash, c] else tok ++ [c]
        shlexCore fuel rest (if inDq then .quot dquote else .word) tok2 quoted acc

/-- shlex.split(line, comments=True) as used by CommandRunner.run. -/
def shlexSplit (s : String) : Except PyExc (List String) :=
  shlexCore (s.data.length + 1) s.data .ws [] false []

example : shlexSplit "" = .ok [] := rfl
example : shlexSplit "   " = .ok [] := rfl
example : shlexSplit "# a comment" = .ok [] := rfl
example : shlexSplit "echo a b c" = .ok ["echo", "a", "b", "c"] := rfl
example : shlexSplit "patron-info 12345 # trailing" = .ok ["patron-info", "12345"] := rfl

/-! ### Python int() and str() helpers used by the handlers -/

def isPyWS (c : Char) : Bool :=
  c = ' ' || c = '\t' || c = '\n' || c = '\r' || c = Char.ofNat 11 || c = Char.ofNat 12

def stripWS (cs : List Char) : List Char :=
  ((cs.dropWhile isPyWS).reverse.dropWhile isPyWS).reverse

def digitsVal (ds : List Char) : Nat :=
  List.foldl (fun a c => a * 10 + (c.toNat - 48)) 0 ds

def parseDigits (ds : List Char) : Option Nat :=
  if ds.isEmpty then none
  else if ds.all (fun c => c.isDigit) then some (digitsVal ds) else none

/-- Python int(s) on a string: surrounding whitespace stripped, optional
sign, decimal digits (digit-grouping underscores are not modelled). -/
def pyIntOfString (s : String) : Option Int :=
  match stripWS s.data with
  | '-' :: ds => (parseDigits ds).map (fun n => -(n : Int))
  | '+' :: ds => (parseDigits ds).map (fun n => (n : Int))
  | ds => (parseDigits ds).map (fun n => (n : Int))

/-- Python int(x) where x is a str or None: int(None) raises TypeError,
int on a non-numeric string raises ValueError. -/
def pyInt : Option String → Except PyExc Int
  | none => .error .typeError
  | some s =>
    match pyIntOfString s with
    | some n => .ok n
    | none => .error .valueError

/-- Python str(x) on a str-or-None value, as used by str.format. -/
def pyStr : Option String → String
  | none => "None"
  | some s => s

def pyEscChars (special : List Char) : List Char → List Char
  | [] => []
  | c :: cs =>
    if special.contains c then bslash :: c :: pyEscChars special cs
    else c :: pyEscChars special cs

/-- Python repr of a string: single quotes by default, double quotes when
the string holds a single quote but no double quote; the backslash and the
chosen quote are escaped (escapes of control characters are not
modelled). -/
def pyReprStr (s : String) : String :=
  if s.data.contains squote && !(s.data.contains dquote) then
    String.mk (dquote :: pyEscChars [bslash] s.data ++ [dquote])
  else
    String.mk (squote :: pyEscChars [bslash, squote] s.data ++ [squote])

/-- Python str(list(args)) for a list of strings. -/
def pyStrList (args : List String) : String :=
  "[" ++ String.intercalate ", " (args.map pyReprStr) ++ "]"

/-! ### Data model: configuration, client, collaborator stub -/

/-- The configuration object as consumed by the CommandRunner handlers:
each field holds a string from the config file or Python None.  (The
loader itself, with its separate attribute-existence subtlety, is
modelled below as ConfigHandler.) -/
structure Config where
  server : Option String
  port : Option String
  institution : Option String
  username : Option String
  password : Option String
  location_code : Option String
deriving DecidableEq, Repr

/-- The pysip2.client.Client object built by connect: the constructor
stores the server and (converted) port, and connect then assigns
default_institution. -/
structure Client where
  server : Option String
  port : Int
  default_institution : Option String
deriving DecidableEq, Repr

/-- Stubbed behavior of the external protocol-client collaborator: fixes
whether client.connect() succeeds, the boolean result of client.login,
the online_status fixed field of the 99 SC Status response, the repr of
that response, and the repr of a patron-info response per barcode. -/
structure ClientBehavior where
  connectOk : Bool
  loginOk : Bool
  online_status : String
  scStatusRepr : String
  patronRespRepr : String → String

/-- Outcome of running one handler (or one line): the session handle
afterwards, the printed lines, the collaborator calls made, and the
Python return value or escaping exception. -/
structure StepResult where
  client : Option Client
  output : List Out
  calls : List Call
  ret : Except PyExc (Option Bool)

instance {ε α : Type} [DecidableEq ε] [DecidableEq α] : DecidableEq (Except ε α)
  | .ok a, .ok b => decidable_of_iff (a = b) (by simp)
  | .ok _, .error _ => .isFalse (by simp)
  | .error _, .ok _ => .isFalse (by simp)
  | .error a, .error b => decidable_of_iff (a = b) (by simp)

/-- Python truthiness of a True/False/None value. -/
def pyTruthy : Option Bool → Bool
  | some true => true
  | _ => false

namespace CommandRunner

/-- The (name, description) pairs registered by CommandRunner.__init__ via
add_command, in registration order (self.commands_sorted). -/
def commandsSorted : List (String × String) :=
  [("help", "Display help message"),
   ("echo", "Echo command with arguments"),
   ("exit", "Exit shell"),
   ("quit", "Exit shell"),
   ("connect", "Open a network connection to the SIP server."),
   ("login", "Send a 93 Login request."),
   ("status", "Send a 99 SC Status request message."),
   ("start", "Shortcut for a combination of \"connect\", \"login\", and \"status\" commands."),
   ("patron-info", "Send a 63 Patron Information Request message.")]

def commandNames : List String := commandsSorted.map Prod.fst

/-- CommandRunner.help: prints the Commands banner and one line per
registered command, iterating self.commands_sorted; returns True. -/
def help (_B : ClientBehavior) (_conf : Config) (client : Option Client)
    (_args : List String) : StepResult :=
  { client := client,
    output := Out.out "Commands:" ::
      commandsSorted.map (fun p => Out.out ("  " ++ p.1 ++ " - " ++ p.2)),
    calls := [],
    ret := .ok (some true) }

/-- CommandRunner.exit: prints Goodbye and calls sys.exit(0), i.e. raises
SystemExit(0). -/
def exit (_B : ClientBehavior) (_conf : Config) (client : Option Client)
    (_args : List String) : StepResult :=
  { client := client, output := [.out "Goodbye"], calls := [],
    ret := .error (.systemExit 0) }

/-- CommandRunner.echo: prints the formatted argument list and falls off
the end, returning None. -/
def echo (_B : ClientBehavior) (_conf : Config) (client : Option Client)
    (args : List String) : StepResult :=
  { client := client, output := [.out ("echo args=" ++ pyStrList args)],
    calls := [], ret := .ok none }

/-- CommandRunner.connect: evaluates int(conf.port) and builds the Client
outside the try block (so a missing or malformed port raises and escapes,
leaving self.client unchanged); inside the try it calls client.connect(),
catching every exception with a bare except that prints the generic
message, resets self.client to None and returns False; on success prints
Connect OK and returns True. -/
def connect (B : ClientBehavior) (conf : Config) (client : Option Client)
    (_args : List String) : StepResult :=
  match pyInt conf.port with
  | .error e => { client := client, output := [], calls := [], ret := .error e }
  | .ok p =>
    let c : Client :=
      { server := conf.server, port := p, default_institution := conf.institution }
    if B.connectOk then
      { client := some c, output := [.out "Connect OK"], calls := [.connect],
        ret := .ok (some true) }
    else
      { client := none,
        output := [.out ("Unable to connect to server " ++ pyStr conf.server
          ++ " port " ++ pyStr conf.port)],
        calls := [.connect],
        ret := .ok (some false) }

/-- CommandRunner.login: calls self.client.login(username, password,
location_code) with no check that self.client is set, so with an empty
session handle the attribute access on None raises AttributeError;
otherwise prints Login OK / Login Failed per the boolean result. -/
def login (B : ClientBehavior) (conf : Config) (client : Option Client)
    (_args : List String) : StepResult :=
  match client with
  | none => { client := none, output := [], calls := [], ret := .error .attributeError }
  | some c =>
    if B.loginOk then
      { client := some c, output := [.out "Login OK"],
        calls := [.login conf.username conf.password conf.location_code],
        ret := .ok (some true) }
    else
      { client := some c, output := [.out "Login Failed"],
        calls := [.login conf.username conf.password conf.location_code],
        ret := .ok (some false) }

/-- CommandRunner.status: calls self.client.sc_status() (AttributeError on
an empty handle), then tests the online_status fixed field against the
literal Y; on Y prints the online message and returns True, otherwise
prints the negative message and the full repr of the response and returns
False. -/
def status (B : ClientBehavior) (_conf : Config) (client : Option Client)
    (_args : List String) : StepResult :=
  match client with
  | none => { client := none, output := [], calls := [], ret := .error .attributeError }
  | some c =>
    if B.online_status = "Y" then
      { client := some c, output := [.out "Server is online"],
        calls := [.sc_status], ret := .ok (some true) }
    else
      { client := some c,
        output := [.out "Server is NOT online", .out B.scStatusRepr],
        calls := [.sc_status], ret := .ok (some false) }

/-- CommandRunner.start: if self.connect(*args): if self.login(*args):
self.status(*args).  Falls off the end, returning None; an exception from
a step propagates. -/
def start (B : ClientBehavior) (conf : Config) (client : Option Client)
    (args : List String) : StepResult :=
  let r1 := connect B conf client args
  match r1.ret with
  | .error e => { client := r1.client, output := r1.output, calls := r1.calls, ret := .error e }
  | .ok v1 =>
    if pyTruthy v1 then
      let r2 := login B conf r1.client args
      match r2.ret with
      | .error e =>
        { client := r2.client, output := r1.output ++ r2.output,
          calls := r1.calls ++ r2.calls, ret := .error e }
      | .ok v2 =>
        if pyTruthy v2 then
          let r3 := status B conf r2.client args
          { client := r3.client,
            output := r1.output ++ r2.output ++ r3.output,
            calls := r1.calls ++ r2.calls ++ r3.calls,
            ret := match r3.ret with | .error e => .error e | .ok _ => .ok none }
        else
          { client := r2.client, output := r1.output ++ r2.output,
            calls := r1.calls ++ r2.calls, ret := .ok none }
    else
      { client := r1.client, output := r1.output, calls := r1.calls, ret := .ok none }

/-- CommandRunner.patron_info: with no arguments prints the barcode
message and returns False without touching the client; otherwise calls
self.client.patron_info_request(args[0]) (AttributeError on an empty
handle), prints the repr of the response and returns True. -/
def patron_info (B : ClientBehavior) (_conf : Config) (client : Option Client)
    (args : List String) : StepResult :=
  match args with
  | [] =>
    { client := client, output := [.out "Patron barcode required"], calls := [],
      ret := .ok (some false) }
  | b :: _ =>
    match client with
    | none => { client := none, output := [], calls := [], ret := .error .attributeError }
    | some c =>
      { client := some c, output := [.out (B.patronRespRepr b)],
        calls := [.patron_info_request b], ret := .ok (some true) }

/-- Type of an embedded handler, mirroring the variadic Python signature
def handler(self, *args): every handler takes the whole token list. -/
def Handler : Type :=
  ClientBehavior → Config → Option Client → List String → StepResult

/-- The self.commands dict built by add_command: name to handler (quit is
registered to the same self.exit handler). -/
def commands (cmd : String) : Option Handler :=
  if cmd = "help" then some help
  else if cmd = "echo" then some echo
  else if cmd = "exit" then some exit
  else if cmd = "quit" then some exit
  else if cmd = "connect" then some connect
  else if cmd = "login" then some login
  else if cmd = "status" then some status
  else if cmd = "start" then some start
  else if cmd = "patron-info" then some patron_info
  else none

/-- The body of CommandRunner.run after tokenization: tokens[0] on an
empty token list raises IndexError; an unknown first token prints the
not-found message to stderr and returns None; otherwise the registered
handler is invoked on the remaining tokens. -/
def runTokens (B : ClientBehavior) (conf : Config) (client : Option Client) :
    List String → StepResult
  | [] => { client := client, output := [], calls := [], ret := .error .indexError }
  | command :: args =>
    match commands command with
    | none =>
      { client := client, output := [.err ("Command not found: " ++ command)],
        calls := [], ret := .ok none }
    | some fn => fn B conf client args

/-- CommandRunner.run: shlex-tokenize the line (a tokenizer ValueError
propagates), then dispatch. -/
def run (B : ClientBehavior) (conf : Config) (client : Option Client)
    (line : String) : StepResult :=
  match shlexSplit line with
  | .error e => { client := client, output := [], calls := [], ret := .error e }
  | .ok tokens => runTokens B conf client tokens

end CommandRunner

/-! ### ConfigHandler: the configuration loader

The loader is modelled at the level of Python object attributes: each
attribute slot is an Option, where none means the attribute was never
assigned (reading it raises AttributeError) and some v means it holds v
(itself a string or Python None).  This distinction matters because
ConfigHandler.__init__ initializes server, port, institution, username and
password to None but never initializes location_code. -/

structure ConfigHandler where
  server : Option (Option String)
  port : Option (Option String)
  institution : Option (Option String)
  username : Option (Option String)
  password : Option (Option String)
  location_code : Option (Option String)
  autostart : Option Bool
deriving DecidableEq, Repr

namespace ConfigHandler

/-- ConfigHandler.__init__: every field but location_code is assigned. -/
def init : ConfigHandler :=
  { server := some none, port := some none, institution := some none,
    username := some none, password := some none,
    location_code := none,
    autostart := some false }

end ConfigHandler

/-- A parsed ini file as configparser exposes it: named sections of
key/value pairs (values are raw strings; configparser does no semantic
validation). -/
structure IniFile where
  sections : List (String × List (String × String))
deriving DecidableEq, Repr

def IniFile.hasSection (f : IniFile) (sec : String) : Bool :=
  f.sections.any (fun p => p.1 = sec)

/-- config[sec].get(key, None): the value string, or None when the key is
absent. -/
def IniFile.get (f : IniFile) (sec key : String) : Option String :=
  match f.sections.find? (fun p => p.1 = sec) with
  | none => none
  | some p => (p.2.find? (fun kv => kv.1 = key)).map Prod.snd

namespace ConfigHandler

/-- ConfigHandler.setup (minus the out-of-scope logging setup): returns
early when the client section is absent, otherwise assigns each of the six
fields from config.get with default None. -/
def setup (self : ConfigHandler) (ini : IniFile) : ConfigHandler :=
  if !(ini.hasSection "client") then self
  else
    { self with
      server := some (ini.get "client" "server"),
      port := some (ini.get "client" "port"),
      institution := some (ini.get "client" "institution"),
      username := some (ini.get "client" "username"),
      password := some (ini.get "client" "password"),
      location_code := some (ini.get "client" "location_code") }

end ConfigHandler

/-! ### Spec-side composition for the start refinement claim -/

/-- The effects (session handle, output, collaborator calls) of running
connect, then login, then status in sequence with short-circuit
evaluation, written from the words of the specification: if connect does
not return success, login and status do not execute; if login does not
return success, status does not execute. -/
def startSeqSpec (B : ClientBehavior) (conf : Config) (client : Option Client)
    (args : List String) : Option Client × List Out × List Call :=
  let r1 := CommandRunner.connect B conf client args
  if r1.ret = .ok (some true) then
    let r2 := CommandRunner.login B conf r1.client args
    if r2.ret = .ok (some true) then
      let r3 := CommandRunner.status B conf r2.client args
      (r3.client, r1.output ++ r2.output ++ r3.output, r1.calls ++ r2.calls ++ r3.calls)
    else (r2.client, r1.output ++ r2.output, r1.calls ++ r2.calls)
  else (r1.client, r1.output, r1.calls)

/-! ### Concrete fixtures for witnesses and counterexamples -/

/-- A fully populated configuration. -/
def conf0 : Config :=
  { server := some "localhost", port := some "6001", institution := some "MAIN",
    username := some "admin", password := some "sekrit",
    location_code := some "loc1" }

/-- The same configuration with the port missing (config file without a
port key leaves conf.port as None). -/
def confNoPort : Config := { conf0 with port := none }

/-- A collaborator stub for which every step succeeds and the server
reports itself online. -/
def behav0 : ClientBehavior :=
  { connectOk := true, loginOk := true, online_status := "Y",
    scStatusRepr := "<sc_status resp>",
    patronRespRepr := fun b => "<patron resp " ++ b ++ ">" }

/-- A collaborator stub whose connect() raises (unreachable server). -/
def behavConnFail : ClientBehavior := { behav0 with connectOk := false }

/-- A collaborator stub whose login returns False. -/
def behavLoginFail : ClientBehavior := { behav0 with loginOk := false }

/-- A pre-existing session handle, used to observe whether connect resets it. -/
def client0 : Client := { server := some "old", port := 1, default_institution := none }

/-- An ini file with no client section. -/
def emptyIni : IniFile := IniFile.mk []

/-- An ini file whose client section holds only the server key. -/
def clientOnlyServerIni : IniFile :=
  IniFile.mk [("client", [("server", "localhost")])]

/-- A name outside the registration-order list is not a key of the
handler dict either: the two structures are kept in sync by
add_command. -/
theorem commands_eq_none_of_not_mem {cmd : String}
    (h : cmd ∉ CommandRunner.commandNames) : CommandRunner.commands cmd = none := by
  simp only [CommandRunner.commandNames, CommandRunner.commandsSorted, List.map,
    List.mem_cons, List.not_mem_nil, or_false, not_or] at h
  obtain ⟨h1, h2, h3, h4, h5, h6, h7, h8, h9⟩ := h
  simp [CommandRunner.commands, h1, h2, h3, h4, h5, h6, h7, h8, h9]

/-! ### Claim theorems -/

/-- Claim C1 (code bug): a blank or comment-only input line tokenizes to an
empty token list, and CommandRunner.run then evaluates tokens[0], which
raises IndexError instead of performing no action and raising no error as
the claim states.  The theorem evaluates run at the failing inputs: the
empty line, a whitespace-only line, and a comment-only line all raise
IndexError (with nothing printed and no handler invoked). -/
theorem run_blank_or_comment_line_raises :
    shlexSplit "" = .ok [] ∧
    shlexSplit "   " = .ok [] ∧
    shlexSplit "# comment only" = .ok [] ∧
    (CommandRunner.run behav0 conf0 none "").ret = .error .indexError ∧
    (CommandRunner.run behav0 conf0 none "").output = [] ∧
    (CommandRunner.run behav0 conf0 none "").calls = [] ∧
    (CommandRunner.run behav0 conf0 none "   ").ret = .error .indexError ∧
    (CommandRunner.run behav0 conf0 none "# comment only").ret = .error .indexError :=
  ⟨rfl, rfl, rfl, rfl, rfl, rfl, rfl, rfl⟩

/-- Claim C2 (code bug): with an empty session handle, CommandRunner.login
dereferences self.client without any check, so it raises AttributeError (a
null-reference fault) instead of reporting a PreconditionFailed condition
and returning failure.  The first conjunct is fully general; the rest
evaluate the scenario from the claim: a failed connect leaves the handle
empty and the subsequent login faults before printing anything or calling
the collaborator. -/
theorem login_empty_handle_faults (B : ClientBehavior) (conf : Config)
    (args : List String) :
    CommandRunner.login B conf none args =
      { client := none, output := [], calls := [], ret := .error .attributeError } ∧
    (CommandRunner.connect behavConnFail conf0 none []).client = none ∧
    (CommandRunner.login behavConnFail conf0
        (CommandRunner.connect behavConnFail conf0 none []).client []).ret
      = .error .attributeError :=
  ⟨rfl, rfl, rfl⟩

/-- Closed instance of login_empty_handle_faults. -/
theorem login_empty_handle_faults_witness :
    CommandRunner.login behav0 conf0 none [] =
      { client := none, output := [], calls := [], ret := .error .attributeError } :=
  (login_empty_handle_faults behav0 conf0 []).1

/-- Claim C3 counterexample: with the port missing from the configuration,
int(conf.port) raises TypeError outside the try block, so the exception
escapes the connect handler, no message is printed, no collaborator call
is made, and the session handle is left unchanged (not reset to empty) —
refuting the claim that for every configuration any failure during the
connect attempt is reported generically with the handle reset and failure
returned. -/
theorem connect_missing_port_raises :
    (CommandRunner.connect behavConnFail confNoPort (some client0) []).ret
      = .error .typeError ∧
    (CommandRunner.connect behavConnFail confNoPort (some client0) []).output = [] ∧
    (CommandRunner.connect behavConnFail confNoPort (some client0) []).client
      = some client0 ∧
    (CommandRunner.connect behavConnFail confNoPort (some client0) []).calls = [] :=
  ⟨rfl, rfl, rfl, rfl⟩

/-- Claim C3 (amended): for every configuration whose port converts to an
integer, any failure of the transport-open attempt (client.connect) makes
connect print the generic unable-to-connect message naming the configured
server and port, reset the session handle to empty, and return False,
with no exception escaping the handler. -/
theorem connect_transport_failure_contained (B : ClientBehavior) (conf : Config)
    (client : Option Client) (args : List String) (p : Int)
    (hp : pyInt conf.port = .ok p) (hB : B.connectOk = false) :
    CommandRunner.connect B conf client args =
      { client := none,
        output := [.out ("Unable to connect to server " ++ pyStr conf.server
          ++ " port " ++ pyStr conf.port)],
        calls := [.connect],
        ret := .ok (some false) } := by
  simp [CommandRunner.connect, hp, hB]

/-- Closed instance of connect_transport_failure_contained. -/
theorem connect_transport_failure_contained_witness :
    CommandRunner.connect behavConnFail conf0 (some client0) [] =
      { client := none,
        output := [.out "Unable to connect to server localhost port 6001"],
        calls := [.connect],
        ret := .ok (some false) } :=
  connect_transport_failure_contained behavConnFail conf0 (some client0) [] 6001 rfl rfl

/-- Claim C4: start has exactly the effects (resulting session handle,
printed output, collaborator calls) of connect, then login, then status
composed with short-circuit evaluation; when connect does not return
success, the call trace holds no login and no status call, and when login
does not return success, the call trace holds no status call. -/
theorem start_equiv_connect_login_status (B : ClientBehavior) (conf : Config)
    (client : Option Client) (args : List String) :
    ((CommandRunner.start B conf client args).client,
      (CommandRunner.start B conf client args).output,
      (CommandRunner.start B conf client args).calls) = startSeqSpec B conf client args ∧
    ((CommandRunner.connect B conf client args).ret ≠ .ok (some true) →
      ((CommandRunner.start B conf client args).calls.all
        (fun c => !c.isLogin && !c.isStatus)) = true) ∧
    ((CommandRunner.login B conf
        (CommandRunner.connect B conf client args).client args).ret ≠ .ok (some true) →
      ((CommandRunner.start B conf client args).calls.all
        (fun c => !c.isStatus)) = true) := by
  unfold CommandRunner.start startSeqSpec
  cases hp : pyInt conf.port with
  | error e =>
    simp [CommandRunner.connect, hp, CommandRunner.login, Call.isLogin, Call.isStatus]
  | ok p =>
    cases hB : B.connectOk with
    | false =>
      simp [CommandRunner.connect, hp, hB, pyTruthy, Call.isLogin, Call.isStatus]
    | true =>
      cases hL : B.loginOk with
      | false =>
        simp [CommandRunner.connect, CommandRunner.login, hp, hB, hL, pyTruthy,
          Call.isLogin, Call.isStatus]
      | true =>
        by_cases hO : B.online_status = "Y" <;>
          simp [CommandRunner.connect, CommandRunner.login, CommandRunner.status,
            hp, hB, hL, hO, pyTruthy, Call.isLogin, Call.isStatus]

/-- Closed instance of start_equiv_connect_login_status: with a stubbed
collaborator whose connect raises, start makes no login and no status
call. -/
theorem start_equiv_connect_login_status_witness :
    ((CommandRunner.start behavConnFail conf0 none []).client,
      (CommandRunner.start behavConnFail conf0 none []).output,
      (CommandRunner.start behavConnFail conf0 none []).calls)
        = startSeqSpec behavConnFail conf0 none [] ∧
    ((CommandRunner.start behavConnFail conf0 none []).calls.all
      (fun c => !c.isLogin && !c.isStatus)) = true := by
  have h := start_equiv_connect_login_status behavConnFail conf0 none []
  exact ⟨h.1, h.2.1 (by decide)⟩

/-- Claim C5: when the line tokenizes to a first token that is not a
registered command name, run prints the not-found message naming that
token to stderr, makes no collaborator call, leaves the session handle
unchanged, and returns None without raising. -/
theorem run_unknown_command (B : ClientBehavior) (conf : Config)
    (client : Option Client) (line : String) (cmd : String) (args : List String)
    (htok : shlexSplit line = .ok (cmd :: args))
    (hmem : cmd ∉ CommandRunner.commandNames) :
    CommandRunner.run B conf client line =
      { client := client, output := [.err ("Command not found: " ++ cmd)],
        calls := [], ret := .ok none } := by
  have hnone := commands_eq_none_of_not_mem hmem
  simp [CommandRunner.run, htok, CommandRunner.runTokens, hnone]

/-- Closed instance of run_unknown_command at the spec scenario input. -/
theorem run_unknown_command_witness :
    CommandRunner.run behav0 conf0 none "bogus" =
      { client := none, output := [.err "Command not found: bogus"],
        calls := [], ret := .ok none } :=
  run_unknown_command behav0 conf0 none "bogus" "bogus" [] rfl (by decide)

/-- Claim C6: help prints the banner followed by one line per registered
command with its description, iterating the registration-order list, and
returns True; and the registration order is exactly help, echo, exit,
quit, connect, login, status, start, patron-info. -/
theorem help_lists_commands_in_registration_order (B : ClientBehavior)
    (conf : Config) (client : Option Client) (args : List String) :
    CommandRunner.help B conf client args =
      { client := client,
        output := Out.out "Commands:" ::
          CommandRunner.commandsSorted.map (fun p => Out.out ("  " ++ p.1 ++ " - " ++ p.2)),
        calls := [], ret := .ok (some true) } ∧
    CommandRunner.commandNames =
      ["help", "echo", "exit", "quit", "connect", "login", "status", "start",
        "patron-info"] :=
  ⟨rfl, rfl⟩

/-- Claim C7: patron-info with zero arguments prints the barcode-required
message, returns False and makes zero collaborator calls; with a barcode
argument and a present session handle it issues the patron-information
request for that barcode, prints the repr of the response, and returns
True whatever the response content is. -/
theorem patron_info_requires_barcode (B : ClientBehavior) (conf : Config)
    (client : Option Client) (c : Client) (b : String) (rest : List String) :
    CommandRunner.patron_info B conf client [] =
      { client := client, output := [.out "Patron barcode required"],
        calls := [], ret := .ok (some false) } ∧
    CommandRunner.patron_info B conf (some c) (b :: rest) =
      { client := some c, output := [.out (B.patronRespRepr b)],
        calls := [.patron_info_request b], ret := .ok (some true) } :=
  ⟨rfl, rfl⟩

/-- Claim C8 (code bug): after the loader runs on a config file with no
client section, the five fields initialized by the constructor are empty
(attribute present, value None), but location_code was never assigned in
the constructor and the early return skips the assignments, so the
attribute does not exist at all and reading it raises AttributeError —
against the claim that every missing field is left empty.  With the
section present, a missing key does leave the field empty (some none). -/
theorem config_loader_leaves_location_code_unset :
    ((ConfigHandler.init.setup emptyIni).server = some none ∧
      (ConfigHandler.init.setup emptyIni).port = some none ∧
      (ConfigHandler.init.setup emptyIni).institution = some none ∧
      (ConfigHandler.init.setup emptyIni).username = some none ∧
      (ConfigHandler.init.setup emptyIni).password = some none) ∧
    (ConfigHandler.init.setup emptyIni).location_code = none ∧
    (ConfigHandler.init.setup clientOnlyServerIni).server = some (some "localhost") ∧
    (ConfigHandler.init.setup clientOnlyServerIni).port = some none ∧
    (ConfigHandler.init.setup clientOnlyServerIni).location_code = some none :=
  ⟨⟨rfl, rfl, rfl, rfl, rfl⟩, rfl, rfl, rfl, rfl⟩

/-- Claim C9 counterexample: on the input echo a b c the handler prints
the tokenized arguments but returns Python None — not the success
indicator True that help, connect and patron-info return on success — so
under the truth convention of this code (a handler signals success by
returning True, and None is falsy) echo does not report success. -/
theorem echo_returns_none_not_success :
    (CommandRunner.run behav0 conf0 none "echo a b c").ret = .ok none ∧
    (CommandRunner.run behav0 conf0 none "echo a b c").ret ≠ .ok (some true) ∧
    (CommandRunner.run behav0 conf0 none "echo a b c").output
      = [.out ("echo args=" ++ pyStrList ["a", "b", "c"])] :=
  ⟨rfl, by decide, rfl⟩

/-- Claim C9 (amended): echo prints the argument list verbatim as received
and never raises, but returns None rather than an explicit success
indicator.  The second conjunct spells out the exact printed list for the
tokens a, b, c: no quoting artifacts and no extra or missing elements. -/
theorem echo_prints_args_verbatim (B : ClientBehavior) (conf : Config)
    (client : Option Client) (args : List String) :
    CommandRunner.echo B conf client args =
      { client := client, output := [.out ("echo args=" ++ pyStrList args)],
        calls := [], ret := .ok none } ∧
    pyStrList ["a", "b", "c"] =
      String.mk ['[', squote, 'a', squote, ',', ' ', squote, 'b', squote, ',', ' ',
        squote, 'c', squote, ']'] :=
  ⟨rfl, rfl⟩

/-- Claim C10: every registered handler is variadic (def handler(self,
*args)), so dispatch through the registry invokes the matched handler on
the remaining tokens whatever their number, never failing with an arity
error; and every handler other than echo ignores its argument list —
in particular patron-info with two or more arguments uses only the first
token as the barcode and silently ignores the rest. -/
theorem handlers_accept_any_arity (B : ClientBehavior) (conf : Config)
    (client : Option Client) (cmd : String) (args : List String)
    (b : String) (rest : List String) :
    (cmd ∈ CommandRunner.commandNames →
      ∃ fn, CommandRunner.commands cmd = some fn ∧
        CommandRunner.runTokens B conf client (cmd :: args) = fn B conf client args) ∧
    CommandRunner.patron_info B conf client (b :: rest)
      = CommandRunner.patron_info B conf client [b] ∧
    CommandRunner.help B conf client args = CommandRunner.help B conf client [] ∧
    CommandRunner.connect B conf client args = CommandRunner.connect B conf client [] ∧
    CommandRunner.login B conf client args = CommandRunner.login B conf client [] ∧
    CommandRunner.status B conf client args = CommandRunner.status B conf client [] ∧
    CommandRunner.start B conf client args = CommandRunner.start B conf client [] := by
  refine ⟨?_, rfl, rfl, rfl, rfl, rfl, rfl⟩
  intro hmem
  simp only [CommandRunner.commandNames, CommandRunner.commandsSorted, List.map,
    List.mem_cons, List.not_mem_nil, or_false] at hmem
  rcases hmem with h | h | h | h | h | h | h | h | h <;> subst h <;> exact ⟨_, rfl, rfl⟩

/-- Closed instance of handlers_accept_any_arity: patron-info dispatched
with three argument tokens runs the handler, which behaves as if given
only the first. -/
theorem handlers_accept_any_arity_witness :
    CommandRunner.runTokens behav0 conf0 none ["patron-info", "b1", "x2", "x3"] =
      CommandRunner.patron_info behav0 conf0 none ["b1", "x2", "x3"] ∧
    CommandRunner.patron_info behav0 conf0 none ["b1", "x2", "x3"] =
      CommandRunner.patron_info behav0 conf0 none ["b1"] := by
  have h := handlers_accept_any_arity behav0 conf0 none "patron-info" ["b1", "x2", "x3"]
    "b1" ["x2", "x3"]
  obtain ⟨fn, hfn, hrun⟩ := h.1 (by decide)
  have hc : CommandRunner.commands "patron-info" = some CommandRunner.patron_info := rfl
  rw [hc] at hfn
  injection hfn with hfn2
  rw [← hfn2] at hrun
  exact ⟨hrun, h.2.1⟩

end Pysip2

